import Mathlib

/-!
Shallow embedding of src/main.py (url_checker), a concurrent URL liveness
checker.  The network is modelled by an oracle: each `session.get` call either
yields a response with a status code or raises one of the two exception classes
the code catches (`requests.exceptions.Timeout`, `requests.exceptions.RequestException`,
every exception the requests library raises being a RequestException subclass).
Thread-pool nondeterminism is modelled explicitly: the `as_completed` stream
yields one completion event per submitted future, in an order that is an
arbitrary permutation of the submitted URLs.
-/

/-- Outcome of one `session.get(url, ...)` call. -/
inductive RequestOutcome where
  | response (code : Nat)
  | timeoutExc
  | requestExc (msg : String)
  deriving DecidableEq, Repr

/-- Closed classification of one probe (spec's StatusValue; the Python code
renders these as strings, see `Status.render`). -/
inductive Status where
  | working
  | redirect (code : Nat)
  | notWorking (code : Nat)
  | timeout
  | failed (reason : String)
  deriving DecidableEq, Repr

/-- The exact strings the Python code returns for each status. -/
def Status.render : Status → String
  | .working => "Working"
  | .redirect c => "Redirect - Status Code: " ++ toString c
  | .notWorking c => "Not Working - Status Code: " ++ toString c
  | .timeout => "Timeout"
  | .failed r => "Failed - " ++ r

/-- State of the module-level `ua` object: either `UserAgent()` succeeded
(`provider`) or its construction raised and `ua` is the fallback dict. -/
inductive UAState where
  | provider
  | fallbackDict
  deriving DecidableEq, Repr

/-- The fixed fallback User-Agent string from the `except` branch at module load. -/
def fallback_user_agent : String :=
  "Mozilla/5.0 (Windows NT 10.0; Win64; x64) AppleWebKit/537.36 (KHTML, like Gecko) Chrome/58.0.3029.110 Safari/537.3"

/-- Headers built at the top of `check_url`: `ua.random if isinstance(ua, UserAgent)
else ua["User-Agent"]`, plus the fixed Referer.  `ident` stands for the string
`ua.random` would supply on this call. -/
def build_headers (u : UAState) (ident : String) : List (String × String) :=
  [("User-Agent", match u with
      | .provider => ident
      | .fallbackDict => fallback_user_agent),
   ("Referer", "https://www.google.com/")]

/-- The if/elif/else ladder on `response.status_code` in `check_url`. -/
def classify_response (code : Nat) : Status :=
  if code = 200 then .working
  else if 300 ≤ code ∧ code < 400 then .redirect code
  else .notWorking code

/-- `URLChecker.check_url`: builds headers, performs the GET (oracle `o`), and
classifies.  The result's second component is `Except.error` exactly when an
exception would escape `check_url`; the two `except` clauses convert
`Timeout` and every other `RequestException` into a returned status. -/
def check_url (u : UAState) (ident : String) (o : RequestOutcome) :
    List (String × String) × Except String Status :=
  (build_headers u ident,
   match o with
   | .response code => .ok (classify_response code)
   | .timeoutExc => .ok .timeout
   | .requestExc msg => .ok (.failed msg))

/-- The URLs actually submitted to the pool: `for url in url_list if url`
(Python truthiness on strings: empty string is falsy). -/
def submitted (url_list : List String) : List String :=
  url_list.filter (fun u => u != "")

/-- What `future.result()` delivers for one completed future, and how the
coordinator's `try/except` turns it into the appended status:
`except Exception as e: status = f"Failed - {str(e)}"`. -/
def collect_status : Except String Status → Status
  | .ok s => s
  | .error e => .failed e

/-- Completion events of a fault-free run, in completion order `order`:
each worker ran `check_url` on its URL and `future.result()` returns that. -/
def completion_events (u : UAState) (ident : String)
    (outcome : String → RequestOutcome) (order : List String) :
    List (Except String Status) :=
  order.map (fun url => (check_url u ident (outcome url)).2)

/-- Completion indices `i` at which the progress line fires:
`if (i + 1) % 10 == 0 or i == len(url_list) - 1` — note the second test uses the
UNfiltered list length (`n`), while `i` enumerates only completed futures (`m`
of them).  Python's `len(url_list) - 1` is `-1` on an empty list, hence Int. -/
def progress_indices (n m : Nat) : List Nat :=
  (List.range m).filter (fun i => (i + 1) % 10 == 0 || ((i : Int) == (n : Int) - 1))

/-- The exact progress string `st.write` receives. -/
def progress_message (n i : Nat) : String :=
  "Processed " ++ toString (i + 1) ++ " out of " ++ toString n ++ " URLs"

/-- `URLChecker.process_urls`: given the original `url_list` and the stream of
completion events (one per submitted future, completion-ordered), returns the
`statuses` list it builds and the sequence of progress lines it emits. -/
def process_urls (url_list : List String) (events : List (Except String Status)) :
    List Status × List String :=
  (events.map collect_status,
   (progress_indices url_list.length events.length).map
     (progress_message url_list.length))

/-- `ExcelSaver.save_to_excel` for one sheet: pandas raises on column-length
mismatch (`none`); otherwise the sheet's rows are the positionwise zip of
`Model_name`, `URL`, `Status`. -/
def save_to_excel (models : List (Option String)) (urls : List String)
    (statuses : List Status) : Option (List (Option String × String × Status)) :=
  if models.length = urls.length ∧ urls.length = statuses.length then
    some (models.zip (urls.zip statuses))
  else none

/-- One element of a model's `images` array: `image.get("src")`. -/
structure ImageEntry where
  src : Option String
  deriving DecidableEq, Repr

/-- One element of a model's `attachments` array: `attachment.get("attachmentLocation")`. -/
structure AttachmentEntry where
  attachmentLocation : Option String
  deriving DecidableEq, Repr

/-- One element of the top-level JSON array:
`json_model.get("general", {}).get("model")`, `.get("images", [])`,
`.get("attachments", [])`. -/
structure JsonModel where
  model : Option String
  images : List ImageEntry
  attachments : List AttachmentEntry
  deriving DecidableEq, Repr

/-- A JSON document as `json.load` sees it: either `JSONDecodeError` or parsed data. -/
inductive Document where
  | malformed (err : String)
  | parsed (data : List JsonModel)
  deriving DecidableEq, Repr

/-- Python truthiness of `url = entry.get(...)`: `None` and `""` are falsy. -/
def truthy : Option String → Option String
  | some u => if u != "" then some u else none
  | none => none

/-- The (model, url) pairs one JsonModel contributes to the image lists:
`if url: image_urls.append(url); image_models.append(model)`. -/
def image_pairs (m : JsonModel) : List (Option String × String) :=
  m.images.filterMap (fun img => (truthy img.src).map (fun u => (m.model, u)))

/-- The (model, url) pairs one JsonModel contributes to the attachment lists. -/
def attachment_pairs (m : JsonModel) : List (Option String × String) :=
  m.attachments.filterMap (fun a => (truthy a.attachmentLocation).map (fun u => (m.model, u)))

/-- `JSONReader.read_urls`: returns
`(image_models, image_urls, attachment_models, attachment_urls)`;
on `JSONDecodeError` it reports the error and returns four empty lists. -/
def read_urls : Document →
    List (Option String) × List String × List (Option String) × List String
  | .malformed _ => ([], [], [], [])
  | .parsed data =>
    ((data.flatMap image_pairs).map Prod.fst,
     (data.flatMap image_pairs).map Prod.snd,
     (data.flatMap attachment_pairs).map Prod.fst,
     (data.flatMap attachment_pairs).map Prod.snd)

/-- A two-URL network scenario for exercising completion order: "u1" responds
HTTP 200, every other URL responds HTTP 404. -/
def two_url_outcome : String → RequestOutcome :=
  fun url => if url = "u1" then .response 200 else .response 404

/-- A sample parsed document: one model with three image entries (one good URL,
one missing, one empty) and one attachment entry. -/
def sample_document : Document :=
  Document.parsed [⟨some "m", [⟨some "http://a"⟩, ⟨none⟩, ⟨some ""⟩], [⟨some "http://p"⟩]⟩]

/-- C2: for every single probe of a URL with redirects not followed: HTTP 200
yields Working; a status code in 300–399 yields Redirect with that code; any
other status code yields NotWorking with that code; exceeding the timeout
yields Timeout; any other transport-level failure yields Failed with the
error description. -/
theorem check_url_classification (u : UAState) (ident : String) (code : Nat) (msg : String) :
    (code = 200 → (check_url u ident (.response code)).2 = .ok .working) ∧
    (300 ≤ code → code < 400 → (check_url u ident (.response code)).2 = .ok (.redirect code)) ∧
    (code ≠ 200 → ¬(300 ≤ code ∧ code < 400) →
      (check_url u ident (.response code)).2 = .ok (.notWorking code)) ∧
    (check_url u ident .timeoutExc).2 = .ok .timeout ∧
    (check_url u ident (.requestExc msg)).2 = .ok (.failed msg) := by
  refine ⟨?_, ?_, ?_, rfl, rfl⟩
  · intro h
    simp [check_url, classify_response, h]
  · intro h1 h2
    have hne : code ≠ 200 := by omega
    simp [check_url, classify_response, hne, h1, h2]
  · intro h1 h2
    simp [check_url, classify_response, h1, h2]

/-- Witness for `check_url_classification` at concrete codes 200, 301, 404,
a timeout and a transport error. -/
theorem check_url_classification_witness :
    (check_url .provider "x" (.response 200)).2 = .ok .working ∧
    (check_url .provider "x" (.response 301)).2 = .ok (.redirect 301) ∧
    (check_url .provider "x" (.response 404)).2 = .ok (.notWorking 404) ∧
    (check_url .provider "x" .timeoutExc).2 = .ok .timeout ∧
    (check_url .provider "x" (.requestExc "conn refused")).2 = .ok (.failed "conn refused") :=
  ⟨(check_url_classification .provider "x" 200 "conn refused").1 rfl,
   (check_url_classification .provider "x" 301 "conn refused").2.1 (by decide) (by decide),
   (check_url_classification .provider "x" 404 "conn refused").2.2.1 (by decide) (by decide),
   (check_url_classification .provider "x" 404 "conn refused").2.2.2.1,
   (check_url_classification .provider "x" 404 "conn refused").2.2.2.2⟩

/-- C4: for every URL and every outcome of the underlying HTTP request, the
dispatcher returns a StatusValue and never propagates an exception: the
`Except` it produces is always `ok`. -/
theorem check_url_total (u : UAState) (ident : String) (o : RequestOutcome) :
    ∃ s : Status, (check_url u ident o).2 = .ok s := by
  cases o with
  | response code => exact ⟨classify_response code, rfl⟩
  | timeoutExc => exact ⟨.timeout, rfl⟩
  | requestExc msg => exact ⟨.failed msg, rfl⟩

/-- C7 counterexample: HTTP 201 is a 2xx response, yet the code classifies it
as NotWorking(201) — refuting "NotWorking exactly when neither 2xx nor 3xx". -/
theorem notWorking_on_2xx_counterexample :
    (check_url .provider "x" (.response 201)).2 = .ok (.notWorking 201) ∧
    200 ≤ 201 ∧ 201 < 300 := ⟨rfl, by decide⟩

/-- C7 amended: for every probe that receives an HTTP response, the result is
NotWorking(code) exactly when the status code is neither 200 nor in 300–399. -/
theorem check_url_notWorking_iff (u : UAState) (ident : String) (code : Nat) :
    (check_url u ident (.response code)).2 = .ok (.notWorking code) ↔
      code ≠ 200 ∧ ¬(300 ≤ code ∧ code < 400) := by
  simp only [check_url, classify_response]
  split
  · rename_i h
    subst h
    simp
  · split
    · rename_i h1 h2
      constructor
      · intro h
        simp at h
      · intro h
        exact absurd h2 h.2
    · rename_i h1 h2
      simp [h1, h2]

/-- Witness for `check_url_notWorking_iff` at code 404. -/
theorem check_url_notWorking_iff_witness :
    (check_url .provider "x" (.response 404)).2 = .ok (.notWorking 404) :=
  (check_url_notWorking_iff .provider "x" 404).mpr (by decide)

/-- C8: if `UserAgent()` failed at module load, every probe's headers carry the
one fixed fallback User-Agent string (independent of the identity the provider
would have drawn); if it succeeded, the headers carry the provider-supplied
identity; in both cases the Referer is the fixed Google URL. -/
theorem check_url_headers_spec (u : UAState) (ident ident2 : String) (o o2 : RequestOutcome) :
    ((check_url .fallbackDict ident o).1.lookup "User-Agent" = some fallback_user_agent) ∧
    ((check_url .fallbackDict ident o).1 = (check_url .fallbackDict ident2 o2).1) ∧
    ((check_url .provider ident o).1.lookup "User-Agent" = some ident) ∧
    ((check_url u ident o).1.lookup "Referer" = some "https://www.google.com/") := by
  refine ⟨?_, rfl, ?_, ?_⟩
  · simp [check_url, build_headers, List.lookup]
  · simp [check_url, build_headers, List.lookup]
  · cases u <;> simp [check_url, build_headers, List.lookup, fallback_user_agent]

/-- C3: for every batch and every completion order (any permutation of the
submitted URLs), the number of statuses returned equals the number of tasks
with a non-empty URL, and the returned statuses are a permutation of the
per-URL probe results — nothing dropped, nothing duplicated. -/
theorem process_urls_completeness (urls : List String) (u : UAState) (ident : String)
    (outcome : String → RequestOutcome) (order : List String)
    (h : order.Perm (submitted urls)) :
    (process_urls urls (completion_events u ident outcome order)).1.length
      = (submitted urls).length ∧
    (process_urls urls (completion_events u ident outcome order)).1.Perm
      ((submitted urls).map (fun x => collect_status (check_url u ident (outcome x)).2)) := by
  constructor
  · simp [process_urls, completion_events, h.length_eq]
  · simp only [process_urls, completion_events, List.map_map]
    exact h.map _

/-- Witness for `process_urls_completeness`: three tasks, one empty URL,
completion order reversed. -/
theorem process_urls_completeness_witness :
    (["b", "a"].Perm (submitted ["a", "", "b"])) ∧
    (process_urls ["a", "", "b"]
        (completion_events .provider "x" (fun _ => .response 200) ["b", "a"])).1.length
      = (submitted ["a", "", "b"]).length :=
  ⟨by decide,
   (process_urls_completeness ["a", "", "b"] .provider "x" (fun _ => .response 200)
      ["b", "a"] (by decide)).1⟩

/-- C5: the coordinator converts an unexpected per-task failure raised by
`future.result()` into a recorded `Failed(reason)` status at that task's
position, keeps every other result, and never shortens the batch — no
exception escapes `process_urls`. -/
theorem process_urls_fault_containment (urls : List String)
    (events : List (Except String Status)) (i : Nat) (e : String) (s : Status) :
    (process_urls urls events).1.length = events.length ∧
    (events[i]? = some (Except.error e) →
      (process_urls urls events).1[i]? = some (Status.failed e)) ∧
    (events[i]? = some (Except.ok s) → (process_urls urls events).1[i]? = some s) := by
  refine ⟨by simp [process_urls], ?_, ?_⟩ <;>
  · intro h
    simp [process_urls, List.getElem?_map, h, collect_status]

/-- Witness for `process_urls_fault_containment`: a faulted first task is
recorded as Failed and the second task's result is still collected. -/
theorem process_urls_fault_containment_witness :
    (process_urls ["a", "b"] [Except.error "boom", Except.ok Status.working]).1.length = 2 ∧
    (process_urls ["a", "b"] [Except.error "boom", Except.ok Status.working]).1[0]?
      = some (Status.failed "boom") :=
  ⟨(process_urls_fault_containment ["a", "b"] [.error "boom", .ok .working] 0 "boom" .working).1,
   (process_urls_fault_containment ["a", "b"] [.error "boom", .ok .working] 0 "boom"
      .working).2.1 rfl⟩

/-- C6 counterexample: batch ["http://a", ""] — its single submitted task
completes (the empty URL is filtered), yet no progress notification at all is
emitted, in particular none after the final completed task, because the
final-task test `i == len(url_list) - 1` uses the unfiltered length 2. -/
theorem progress_final_skipped_counterexample :
    (process_urls ["http://a", ""] [Except.ok Status.working]).1 = [Status.working] ∧
    (process_urls ["http://a", ""] [Except.ok Status.working]).2 = [] := by decide

/-- C6 amended: a progress notification is emitted after every 10th completed
task; the final-task notification is keyed to the unfiltered batch length, so
it fires unconditionally only when no task was filtered out (number of
completed tasks = unfiltered length); filtered tasks are not counted as
completions; progress emission does not alter the returned statuses. -/
theorem process_urls_progress (urls : List String) (events : List (Except String Status)) :
    (process_urls urls events).2 =
      (progress_indices urls.length events.length).map (progress_message urls.length) ∧
    (∀ i, i < events.length → (i + 1) % 10 = 0 →
      i ∈ progress_indices urls.length events.length) ∧
    (0 < events.length → events.length = urls.length →
      events.length - 1 ∈ progress_indices urls.length events.length) ∧
    (process_urls urls events).1 = events.map collect_status := by
  refine ⟨rfl, ?_, ?_, rfl⟩
  · intro i hi h10
    simp [progress_indices, List.mem_filter, List.mem_range, hi, h10]
  · intro hm hmn
    simp only [progress_indices, List.mem_filter, List.mem_range, Bool.or_eq_true,
      beq_iff_eq]
    refine ⟨by omega, Or.inr ?_⟩
    omega

/-- Witness for `process_urls_progress`: a one-task batch with no filtered URLs
gets its final-task notification. -/
theorem process_urls_progress_witness :
    (0 : Nat) ∈ progress_indices 1 1 :=
  (process_urls_progress ["http://a"] [Except.ok Status.working]).2.2.1
    (by decide) (by decide)

/-- C1 (code bug): with batch ["u1", "u2"], labels ["m1", "m1"], u1 → HTTP 200
and u2 → HTTP 404, and u2's worker completing first, the statuses come out in
completion order while the exporter zips them against submission-ordered URLs:
row 0 pairs u1 with NotWorking(404) although probing u1 yields Working. -/
theorem statuses_misaligned_with_urls :
    (["u2", "u1"].Perm (submitted ["u1", "u2"])) ∧
    (process_urls ["u1", "u2"]
        (completion_events .provider "x" two_url_outcome ["u2", "u1"])).1
      = [Status.notWorking 404, Status.working] ∧
    collect_status (check_url .provider "x" (two_url_outcome "u1")).2 = Status.working ∧
    save_to_excel [some "m1", some "m1"] ["u1", "u2"]
        (process_urls ["u1", "u2"]
          (completion_events .provider "x" two_url_outcome ["u2", "u1"])).1
      = some [(some "m1", "u1", Status.notWorking 404),
              (some "m1", "u2", Status.working)] := by
  refine ⟨by decide, by decide, by decide, by decide⟩

/-- A URL that survives the truthiness test is non-empty. -/
theorem truthy_eq_some {o : Option String} {u : String} (h : truthy o = some u) :
    u ≠ "" := by
  cases o with
  | none => simp [truthy] at h
  | some v =>
    simp only [truthy] at h
    by_cases hv : (v != "") = true
    · rw [if_pos hv] at h
      obtain rfl : v = u := Option.some.inj h
      simpa using hv
    · rw [if_neg hv] at h
      exact absurd h (by simp)

/-- Every image pair a model contributes carries a non-empty URL. -/
theorem mem_image_pairs_ne {m : JsonModel} {p : Option String × String}
    (h : p ∈ image_pairs m) : p.2 ≠ "" := by
  simp only [image_pairs, List.mem_filterMap] at h
  obtain ⟨img, _, himg⟩ := h
  rw [Option.map_eq_some'] at himg
  obtain ⟨u, hu, hp⟩ := himg
  subst hp
  exact truthy_eq_some hu

/-- Every attachment pair a model contributes carries a non-empty URL. -/
theorem mem_attachment_pairs_ne {m : JsonModel} {p : Option String × String}
    (h : p ∈ attachment_pairs m) : p.2 ≠ "" := by
  simp only [attachment_pairs, List.mem_filterMap] at h
  obtain ⟨a, _, ha⟩ := h
  rw [Option.map_eq_some'] at ha
  obtain ⟨u, hu, hp⟩ := ha
  subst hp
  exact truthy_eq_some hu

/-- C10: read_urls returns four lists where the image labels and image URLs
have equal length, the attachment labels and attachment URLs have equal
length, every returned URL is non-empty (an entry with a missing or empty URL
is skipped together with its label), and a malformed document yields four
empty lists rather than an exception. -/
theorem read_urls_invariants (d : Document) :
    (read_urls d).1.length = (read_urls d).2.1.length ∧
    (read_urls d).2.2.1.length = (read_urls d).2.2.2.length ∧
    (∀ u, u ∈ (read_urls d).2.1 → u ≠ "") ∧
    (∀ u, u ∈ (read_urls d).2.2.2 → u ≠ "") ∧
    (∀ err, read_urls (Document.malformed err) = ([], [], [], [])) := by
  refine ⟨?_, ?_, ?_, ?_, fun _ => rfl⟩
  · cases d <;> simp [read_urls]
  · cases d <;> simp [read_urls]
  · cases d with
    | malformed e => simp [read_urls]
    | parsed data =>
      intro u hu
      simp only [read_urls, List.mem_map, List.mem_flatMap] at hu
      obtain ⟨p, ⟨m, _, hp⟩, rfl⟩ := hu
      exact mem_image_pairs_ne hp
  · cases d with
    | malformed e => simp [read_urls]
    | parsed data =>
      intro u hu
      simp only [read_urls, List.mem_map, List.mem_flatMap] at hu
      obtain ⟨p, ⟨m, _, hp⟩, rfl⟩ := hu
      exact mem_attachment_pairs_ne hp

/-- Witness for `read_urls_invariants`: on `sample_document`, the surviving
image URL is a member of the returned list and is non-empty. -/
theorem read_urls_invariants_witness :
    ("http://a" ∈ (read_urls sample_document).2.1) ∧ ("http://a" : String) ≠ "" :=
  ⟨by decide, (read_urls_invariants sample_document).2.2.1 "http://a" (by decide)⟩
